import Mathlib

/-!
The Misskey to BouyomiChan bridge miYomiage (`main.go`).

A shallow embedding of `main.go`.  The program is a chain of effectful
procedures; every effect it performs on the outside world (dialling, writing a
JSON frame, reading a message, closing, logging, printing) is appended to a
trace, and every answer the outside world gives (environment variables, dial
and write errors, the decoding performed by `encoding/json`) is read from an
`Env`.  Procedures are trace transformers returning an `Outcome`.

The signal watcher goroutine (`handleInterrupt`) runs concurrently with the
read loop; the sequential model of `main` describes the runs in which no
signal arrives.
-/

set_option autoImplicit false

namespace MiYomiage

/-! ## Dynamic values (`interface{}`) -/

/-- A Go `interface{}` value as produced by `encoding/json` or written in a
map literal.  `float64` carries the bit pattern of the number; the program
never inspects it. -/
inductive Dyn where
  | nil
  | bool (b : Bool)
  | float64 (bits : Nat)
  | int (i : Int)
  | string (s : String)
  | slice (xs : List Dyn)
  | object (m : List (String × Dyn))

/-- The Go type `map[string]interface{}`: an association list read by key. -/
abbrev Obj := List (String × Dyn)

/-- The index expression `m[k]`: the zero value `nil` when the key is absent. -/
def Obj.index (m : Obj) (k : String) : Dyn :=
  match m.lookup k with
  | some v => v
  | none => Dyn.nil

/-- The type assertion `v.(string)` in its comma-ok form. -/
def Dyn.asString : Dyn → Option String
  | Dyn.string s => some s
  | _ => none

/-- The type assertion `v.(map[string]interface{})` in its comma-ok form. -/
def Dyn.asObj : Dyn → Option Obj
  | Dyn.object m => some m
  | _ => none

/-! ## Effects -/

/-- The two `*websocket.Conn` values `main` creates: `conn` (Misskey streaming)
and `bouyomiConn` (BouyomiChan). -/
inductive ConnId where
  | misskey
  | bouyomi
  deriving DecidableEq

/-- One observable effect. -/
inductive Event where
  | dial (url : String) (err : Option String)
  | writeJSON (c : ConnId) (v : Dyn) (err : Option String)
  | readMessage (c : ConnId)
  | close (c : ConnId)
  | log (line : String)
  | stdout (text : String)

/-- The effects performed so far, oldest first. -/
abbrev Trace := List Event

/-- The result of one `conn.ReadMessage()` call: an error or the raw message. -/
abbrev ReadResult := Except String String

/-- The answers of the outside world and of the libraries. -/
structure Env where
  /-- The error returned by `godotenv.Load()`, `none` for `nil`. -/
  godotenvLoad : Option String
  /-- The function `os.Getenv`: the empty string for an unset variable. -/
  getenv : String → String
  /-- The error returned by `websocket.DefaultDialer.Dial` for a URL. -/
  dialErr : String → Option String
  /-- The error returned by the `n`-th `WriteJSON` call on a connection. -/
  writeErr : ConnId → Nat → Option String
  /-- The function `json.Unmarshal` into a `map[string]interface{}`. -/
  jsonUnmarshal : String → Except String Obj

/-- How a procedure ends. -/
inductive Outcome where
  /-- The procedure returned to its caller. -/
  | returned (tr : Trace)
  /-- The process exited (`log.Fatal` exits with status 1). -/
  | exited (code : Nat) (tr : Trace)
  /-- The procedure is blocked in `conn.ReadMessage()`: the connection has
  delivered every result it has and has not failed. -/
  | waiting (tr : Trace)

/-- The trace at the end of a procedure. -/
def Outcome.trace : Outcome → Trace
  | Outcome.returned tr => tr
  | Outcome.exited _ tr => tr
  | Outcome.waiting tr => tr

/-- The values handed to `WriteJSON` on connection `c`, in call order. -/
def writesOn (c : ConnId) (tr : Trace) : List Dyn :=
  tr.filterMap fun e =>
    match e with
    | Event.writeJSON c' v _ => if c' = c then some v else none
    | _ => none

/-- The URLs handed to `Dial`, in call order. -/
def dials (tr : Trace) : List String :=
  tr.filterMap fun e =>
    match e with
    | Event.dial url _ => some url
    | _ => none

/-- The reads and writes on connection `c`, in order. -/
def connEvents (c : ConnId) (tr : Trace) : List Event :=
  tr.filter fun e =>
    match e with
    | Event.writeJSON c' _ _ => decide (c' = c)
    | Event.readMessage c' => decide (c' = c)
    | _ => false

/-- The number of `ReadMessage` calls made on connection `c`. -/
def readsOn (c : ConnId) (tr : Trace) : Nat :=
  (tr.filter fun e =>
    match e with
    | Event.readMessage c' => decide (c' = c)
    | _ => false).length

/-- The call `log.Println(...)` / `log.Printf(...)`: one log line. -/
def logPrint (line : String) (tr : Trace) : Trace :=
  tr ++ [Event.log line]

/-- The call `log.Fatal(...)`: one log line, then `os.Exit(1)`. -/
def logFatal (line : String) (tr : Trace) : Outcome :=
  Outcome.exited 1 (tr ++ [Event.log line])

/-- The call `c.WriteJSON(v)`: the write is attempted and its error returned. -/
def WriteJSON (env : Env) (c : ConnId) (v : Dyn) (tr : Trace) : Option String × Trace :=
  let err := env.writeErr c (writesOn c tr).length
  (err, tr ++ [Event.writeJSON c v err])

/-- The call `websocket.DefaultDialer.Dial(url, nil)`. -/
def Dial (env : Env) (url : String) (tr : Trace) : Option String × Trace :=
  (env.dialErr url, tr ++ [Event.dial url (env.dialErr url)])

/-! ## The program -/

/-- The function `handleNoteMessage` (main.go 138-165). -/
def handleNoteMessage (env : Env) (body : Obj) (bouyomiConn : ConnId) (tr : Trace) : Outcome :=
  match (body.index "body").asObj with
  | none => Outcome.returned (logPrint "Noteメッセージのボディが不明です" tr)
  | some noteBody =>
    match (noteBody.index "text").asString with
    | none => Outcome.returned (logPrint "Noteメッセージの本文が不明です" tr)
    | some text =>
      let tr1 := tr ++ [Event.stdout ("新しい投稿: " ++ text ++ "\n")]
      match WriteJSON env bouyomiConn (Dyn.object [
          ("Command", Dyn.string "Talk"),
          ("Text", Dyn.string text),
          ("VoiceType", Dyn.int 0),
          ("Volume", Dyn.int (-1)),
          ("Speed", Dyn.int (-1)),
          ("Tone", Dyn.int (-1)),
          ("Encoding", Dyn.int 0)]) tr1 with
      | (some err, tr2) =>
        Outcome.returned (logPrint ("BouyomiChanへのメッセージ送信エラー: " ++ err) tr2)
      | (none, tr2) => Outcome.returned tr2

/-- The function `handleChannelMessage` (main.go 106-136). -/
def handleChannelMessage (env : Env) (msg : Obj) (bouyomiConn : ConnId) (tr : Trace) : Outcome :=
  match (msg.index "body").asObj with
  | none => Outcome.returned (logPrint "メッセージのボディが不明です" tr)
  | some body =>
    match (body.index "id").asString with
    | none => Outcome.returned (logPrint "チャンネルIDが不明です" tr)
    | some channelID =>
      if channelID ≠ "example" then
        Outcome.returned (logPrint "対象のチャンネルではありません" tr)
      else
        match (body.index "type").asString with
        | none => Outcome.returned (logPrint "メッセージのタイプが不明です" tr)
        | some channelType =>
          if channelType = "note" then
            handleNoteMessage env body bouyomiConn tr
          else
            Outcome.returned (logPrint ("未知のチャンネルメッセージタイプ: " ++ channelType) tr)

/-- The function `handleMisskeyMessage` (main.go 91-104). -/
def handleMisskeyMessage (env : Env) (msg : Obj) (bouyomiConn : ConnId) (tr : Trace) : Outcome :=
  match (msg.index "type").asString with
  | none => Outcome.returned (logPrint "メッセージのタイプが不明です" tr)
  | some msgType =>
    if msgType = "channel" then
      handleChannelMessage env msg bouyomiConn tr
    else
      Outcome.returned (logPrint ("未知のメッセージタイプ: " ++ msgType) tr)

/-- The function `readMisskeyStreaming` (main.go 73-89).  `incoming` lists the results of
the successive `conn.ReadMessage()` calls; when it is used up the loop is
blocked in the next call. -/
def readMisskeyStreaming (env : Env) (conn bouyomiConn : ConnId) :
    List ReadResult → Trace → Outcome
  | [], tr => Outcome.waiting tr
  | Except.error err :: _, tr =>
    Outcome.returned
      (logPrint ("Misskey Streaming APIからのメッセージの読み取りエラー: " ++ err)
        (tr ++ [Event.readMessage conn]))
  | Except.ok message :: rest, tr =>
    let tr1 := tr ++ [Event.readMessage conn]
    match env.jsonUnmarshal message with
    | Except.error err =>
      readMisskeyStreaming env conn bouyomiConn rest
        (logPrint ("メッセージのJSON解析エラー: " ++ err) tr1)
    | Except.ok msg =>
      match handleMisskeyMessage env msg bouyomiConn tr1 with
      | Outcome.returned tr2 => readMisskeyStreaming env conn bouyomiConn rest tr2
      | o => o

/-- The function `connectToChannel` (main.go 59-71). -/
def connectToChannel (env : Env) (conn : ConnId) (channel : String) (tr : Trace) : Outcome :=
  match WriteJSON env conn (Dyn.object [
      ("type", Dyn.string "connect"),
      ("body", Dyn.object [
        ("channel", Dyn.string channel)])]) tr with
  | (some err, tr1) => logFatal ("チャンネルに接続できませんでした:" ++ err) tr1
  | (none, tr1) => Outcome.returned tr1

/-- The function `connectToBouyomiChan` (main.go 167-173): the error, if any, is wrapped. -/
def connectToBouyomiChan (env : Env) (url : String) (tr : Trace) : Option String × Trace :=
  match Dial env url tr with
  | (some err, tr1) => (some ("BouyomiChanに接続できませんでした: " ++ err), tr1)
  | (none, tr1) => (none, tr1)

/-- The function `handleInterrupt` (main.go 52-57), from the moment a signal has arrived. -/
def handleInterrupt (conn : ConnId) (tr : Trace) : Outcome :=
  Outcome.exited 0 (tr ++ [Event.stdout "プログラムを終了します...\n", Event.close conn])

/-- The function `main` (main.go 17-50).  The deferred closes run when `main` returns, in
reverse order of their `defer` statements; `log.Fatal` exits without them. -/
def main (env : Env) (incoming : List ReadResult) (tr : Trace) : Outcome :=
  match env.godotenvLoad with
  | some err => logFatal ("環境変数の読み込みエラー:" ++ err) tr
  | none =>
    let misskeyHost := env.getenv "MISSKEY_HOST"
    let misskeyApiKey := env.getenv "MISSKEY_API_KEY"
    let misskeyStreamingEndpoint := "wss://" ++ misskeyHost ++ "/streaming?i=" ++ misskeyApiKey
    let bouyomiChanHost := env.getenv "BOUYOMI_CHAN_HOST"
    let bouyomiChanWebSocketURL := "ws://" ++ bouyomiChanHost ++ "/TalkAPI/"
    let channelName := env.getenv "MISSKEY_CHANNEL_NAME"
    match Dial env misskeyStreamingEndpoint tr with
    | (some err, tr1) => logFatal ("Misskey Streaming APIに接続できませんでした:" ++ err) tr1
    | (none, tr1) =>
      match connectToBouyomiChan env bouyomiChanWebSocketURL tr1 with
      | (some err, tr2) => logFatal ("BouyomiChanに接続できませんでした:" ++ err) tr2
      | (none, tr2) =>
        match connectToChannel env ConnId.misskey channelName tr2 with
        | Outcome.returned tr3 =>
          match readMisskeyStreaming env ConnId.misskey ConnId.bouyomi incoming tr3 with
          | Outcome.returned tr4 =>
            Outcome.returned (tr4 ++ [Event.close ConnId.bouyomi, Event.close ConnId.misskey])
          | o => o
        | o => o

/-! ## Sample inputs -/

/-- The decoded frame of Scenario A with a chosen channel id and text. -/
def noteFrame (id text : String) : Obj :=
  [("type", Dyn.string "channel"),
   ("body", Dyn.object [
     ("id", Dyn.string id),
     ("type", Dyn.string "note"),
     ("body", Dyn.object [("text", Dyn.string text)])])]

/-- The JSON text of `noteFrame id text`. -/
def noteJSON (id text : String) : String :=
  "\x7b\"type\":\"channel\",\"body\":\x7b\"id\":\"" ++ id ++
    "\",\"type\":\"note\",\"body\":\x7b\"text\":\"" ++ text ++ "\"\x7d\x7d\x7d"

/-- The JSON text of Scenario C. -/
def pingJSON : String := "\x7b\"type\":\"ping\"\x7d"

/-- A note frame for channel id "example" with further fields at each of the
three levels. -/
def noteFrameExtra : Obj :=
  [("seq", Dyn.float64 0),
   ("type", Dyn.string "channel"),
   ("body", Dyn.object [
     ("id", Dyn.string "example"),
     ("type", Dyn.string "note"),
     ("body", Dyn.object [
       ("id", Dyn.string "9abc"),
       ("text", Dyn.string "hello"),
       ("cw", Dyn.nil),
       ("files", Dyn.slice [])]),
     ("extra", Dyn.bool true)])]

/-- What `json.Unmarshal` makes of the sample messages. -/
def sampleUnmarshal (raw : String) : Except String Obj :=
  if raw = noteJSON "example" "hi" then Except.ok (noteFrame "example" "hi")
  else if raw = noteJSON "example" "yo" then Except.ok (noteFrame "example" "yo")
  else if raw = noteJSON "other" "hi" then Except.ok (noteFrame "other" "hi")
  else if raw = pingJSON then Except.ok [("type", Dyn.string "ping")]
  else Except.error "invalid character"

/-- An environment in which nothing fails, with a chosen value of
`MISSKEY_CHANNEL_NAME`. -/
def sampleEnv (channelName : String) : Env where
  godotenvLoad := none
  getenv := fun key =>
    if key = "MISSKEY_HOST" then "misskey.test"
    else if key = "MISSKEY_API_KEY" then "token"
    else if key = "BOUYOMI_CHAN_HOST" then "localhost:50002"
    else if key = "MISSKEY_CHANNEL_NAME" then channelName
    else ""
  dialErr := fun _ => none
  writeErr := fun _ _ => none
  jsonUnmarshal := sampleUnmarshal

/-- The environment of `sampleEnv "example"` in which the first write to
BouyomiChan fails. -/
def flakyEnv : Env where
  godotenvLoad := none
  getenv := (sampleEnv "example").getenv
  dialErr := fun _ => none
  writeErr := fun c n =>
    match c, n with
    | ConnId.bouyomi, 0 => some "broken pipe"
    | _, _ => none
  jsonUnmarshal := sampleUnmarshal

/-- An environment with no variable set, in which dialling fails. -/
def emptyEnv : Env where
  godotenvLoad := none
  getenv := fun _ => ""
  dialErr := fun _ => some "dial tcp: missing address"
  writeErr := fun _ _ => none
  jsonUnmarshal := sampleUnmarshal

/-- The map literal `handleNoteMessage` hands to `bouyomiConn.WriteJSON`. -/
def talk (text : String) : Dyn :=
  Dyn.object [
    ("Command", Dyn.string "Talk"),
    ("Text", Dyn.string text),
    ("VoiceType", Dyn.int 0),
    ("Volume", Dyn.int (-1)),
    ("Speed", Dyn.int (-1)),
    ("Tone", Dyn.int (-1)),
    ("Encoding", Dyn.int 0)]

/-- The decoded frame `msg` is a note notification for channel id `id` with
text `text`: type "channel", body.id `id`, body.type "note", body.body.text
`text`, with any further fields at each of the three levels. -/
def IsNoteFrame (msg : Obj) (id text : String) : Prop :=
  msg.lookup "type" = some (Dyn.string "channel") ∧
  ∃ body : Obj, msg.lookup "body" = some (Dyn.object body) ∧
    body.lookup "id" = some (Dyn.string id) ∧
    body.lookup "type" = some (Dyn.string "note") ∧
    ∃ noteBody : Obj, body.lookup "body" = some (Dyn.object noteBody) ∧
      noteBody.lookup "text" = some (Dyn.string text)

/-- The log line that follows a write to BouyomiChan, if the write failed. -/
def sendErrorLog : Option String → Trace
  | some err => [Event.log ("BouyomiChanへのメッセージ送信エラー: " ++ err)]
  | none => []

/-! ## Traces -/

@[simp] theorem writesOn_nil (c : ConnId) : writesOn c [] = [] := rfl

@[simp] theorem writesOn_append (c : ConnId) (a b : Trace) :
    writesOn c (a ++ b) = writesOn c a ++ writesOn c b := by
  simp [writesOn, List.filterMap_append]

@[simp] theorem writesOn_cons_log (c : ConnId) (l : String) (tr : Trace) :
    writesOn c (Event.log l :: tr) = writesOn c tr := by
  simp [writesOn, List.filterMap_cons]

@[simp] theorem writesOn_cons_stdout (c : ConnId) (l : String) (tr : Trace) :
    writesOn c (Event.stdout l :: tr) = writesOn c tr := by
  simp [writesOn, List.filterMap_cons]

@[simp] theorem writesOn_cons_read (c c' : ConnId) (tr : Trace) :
    writesOn c (Event.readMessage c' :: tr) = writesOn c tr := by
  simp [writesOn, List.filterMap_cons]

@[simp] theorem writesOn_cons_close (c c' : ConnId) (tr : Trace) :
    writesOn c (Event.close c' :: tr) = writesOn c tr := by
  simp [writesOn, List.filterMap_cons]

@[simp] theorem writesOn_cons_dial (c : ConnId) (u : String) (e : Option String) (tr : Trace) :
    writesOn c (Event.dial u e :: tr) = writesOn c tr := by
  simp [writesOn, List.filterMap_cons]

@[simp] theorem writesOn_cons_write (c c' : ConnId) (v : Dyn) (e : Option String) (tr : Trace) :
    writesOn c (Event.writeJSON c' v e :: tr) = (if c' = c then [v] else []) ++ writesOn c tr := by
  by_cases h : c' = c <;> simp [writesOn, List.filterMap_cons, h]

@[simp] theorem writesOn_logPrint (c : ConnId) (l : String) (tr : Trace) :
    writesOn c (logPrint l tr) = writesOn c tr := by
  simp [logPrint]

@[simp] theorem readsOn_nil (c : ConnId) : readsOn c [] = 0 := rfl

@[simp] theorem readsOn_append (c : ConnId) (a b : Trace) :
    readsOn c (a ++ b) = readsOn c a + readsOn c b := by
  simp [readsOn, List.filter_append]

@[simp] theorem readsOn_cons_log (c : ConnId) (l : String) (tr : Trace) :
    readsOn c (Event.log l :: tr) = readsOn c tr := by
  simp [readsOn, List.filter_cons]

@[simp] theorem readsOn_cons_stdout (c : ConnId) (l : String) (tr : Trace) :
    readsOn c (Event.stdout l :: tr) = readsOn c tr := by
  simp [readsOn, List.filter_cons]

@[simp] theorem readsOn_cons_write (c c' : ConnId) (v : Dyn) (e : Option String) (tr : Trace) :
    readsOn c (Event.writeJSON c' v e :: tr) = readsOn c tr := by
  simp [readsOn, List.filter_cons]

@[simp] theorem readsOn_cons_read (c : ConnId) (tr : Trace) :
    readsOn c (Event.readMessage c :: tr) = readsOn c tr + 1 := by
  simp [readsOn, List.filter_cons]

@[simp] theorem connEvents_nil (c : ConnId) : connEvents c [] = [] := rfl

@[simp] theorem connEvents_append (c : ConnId) (a b : Trace) :
    connEvents c (a ++ b) = connEvents c a ++ connEvents c b := by
  simp [connEvents, List.filter_append]

@[simp] theorem connEvents_cons_log (c : ConnId) (l : String) (tr : Trace) :
    connEvents c (Event.log l :: tr) = connEvents c tr := by
  simp [connEvents, List.filter_cons]

@[simp] theorem connEvents_cons_stdout (c : ConnId) (l : String) (tr : Trace) :
    connEvents c (Event.stdout l :: tr) = connEvents c tr := by
  simp [connEvents, List.filter_cons]

@[simp] theorem connEvents_cons_dial (c : ConnId) (u : String) (e : Option String)
    (tr : Trace) : connEvents c (Event.dial u e :: tr) = connEvents c tr := by
  simp [connEvents, List.filter_cons]

@[simp] theorem connEvents_cons_close (c c' : ConnId) (tr : Trace) :
    connEvents c (Event.close c' :: tr) = connEvents c tr := by
  simp [connEvents, List.filter_cons]

theorem connEvents_cons_write_ne (c c' : ConnId) (v : Dyn) (e : Option String)
    (tr : Trace) (h : c' ≠ c) :
    connEvents c (Event.writeJSON c' v e :: tr) = connEvents c tr := by
  simp [connEvents, List.filter_cons, h]

@[simp] theorem connEvents_cons_write_self (c : ConnId) (v : Dyn) (e : Option String)
    (tr : Trace) :
    connEvents c (Event.writeJSON c v e :: tr) = Event.writeJSON c v e :: connEvents c tr := by
  simp [connEvents, List.filter_cons]

@[simp] theorem connEvents_cons_read_self (c : ConnId) (tr : Trace) :
    connEvents c (Event.readMessage c :: tr) = Event.readMessage c :: connEvents c tr := by
  simp [connEvents, List.filter_cons]

@[simp] theorem dials_nil : dials [] = [] := rfl

@[simp] theorem dials_append (a b : Trace) : dials (a ++ b) = dials a ++ dials b := by
  simp [dials, List.filterMap_append]

@[simp] theorem dials_cons_dial (u : String) (e : Option String) (tr : Trace) :
    dials (Event.dial u e :: tr) = u :: dials tr := by
  simp [dials, List.filterMap_cons]

@[simp] theorem dials_cons_log (l : String) (tr : Trace) :
    dials (Event.log l :: tr) = dials tr := by
  simp [dials, List.filterMap_cons]

@[simp] theorem dials_cons_stdout (l : String) (tr : Trace) :
    dials (Event.stdout l :: tr) = dials tr := by
  simp [dials, List.filterMap_cons]

@[simp] theorem dials_cons_read (c : ConnId) (tr : Trace) :
    dials (Event.readMessage c :: tr) = dials tr := by
  simp [dials, List.filterMap_cons]

@[simp] theorem dials_cons_close (c : ConnId) (tr : Trace) :
    dials (Event.close c :: tr) = dials tr := by
  simp [dials, List.filterMap_cons]

@[simp] theorem dials_cons_write (c : ConnId) (v : Dyn) (e : Option String) (tr : Trace) :
    dials (Event.writeJSON c v e :: tr) = dials tr := by
  simp [dials, List.filterMap_cons]

/-! ## Field access -/

theorem index_asString_iff (m : Obj) (k s : String) :
    (m.index k).asString = some s ↔ m.lookup k = some (Dyn.string s) := by
  unfold Obj.index
  cases h : List.lookup k m with
  | none => simp [Dyn.asString]
  | some v => cases v <;> simp [Dyn.asString]

theorem index_asObj_iff (m : Obj) (k : String) (o : Obj) :
    (m.index k).asObj = some o ↔ m.lookup k = some (Dyn.object o) := by
  unfold Obj.index
  cases h : List.lookup k m with
  | none => simp [Dyn.asObj]
  | some v => cases v <;> simp [Dyn.asObj]

/-! ## The dispatch -/

@[simp] theorem writesOn_sendErrorLog (c : ConnId) (err : Option String) :
    writesOn c (sendErrorLog err) = [] := by
  cases err <;> simp [sendErrorLog]

@[simp] theorem readsOn_sendErrorLog (c : ConnId) (err : Option String) :
    readsOn c (sendErrorLog err) = 0 := by
  cases err <;> simp [sendErrorLog]

@[simp] theorem dials_sendErrorLog (err : Option String) :
    dials (sendErrorLog err) = [] := by
  cases err <;> simp [sendErrorLog]

@[simp] theorem connEvents_sendErrorLog (c : ConnId) (err : Option String) :
    connEvents c (sendErrorLog err) = [] := by
  cases err <;> simp [sendErrorLog]

/-- What an accepted note does: print the text, attempt one write, and log
the write error if there is one. -/
theorem handleNoteMessage_text (env : Env) (body noteBody : Obj) (t : String)
    (b : ConnId) (tr : Trace)
    (h1 : body.lookup "body" = some (Dyn.object noteBody))
    (h2 : noteBody.lookup "text" = some (Dyn.string t)) :
    handleNoteMessage env body b tr =
      Outcome.returned (tr ++ Event.stdout ("新しい投稿: " ++ t ++ "\n") ::
        Event.writeJSON b (talk t) (env.writeErr b (writesOn b tr).length) ::
        sendErrorLog (env.writeErr b (writesOn b tr).length)) := by
  have e1 := (index_asObj_iff body "body" noteBody).2 h1
  have e2 := (index_asString_iff noteBody "text" t).2 h2
  unfold handleNoteMessage
  rw [e1]; simp only [e2, WriteJSON]
  have hlen : (writesOn b (tr ++ [Event.stdout ("新しい投稿: " ++ t ++ "\n")])).length
      = (writesOn b tr).length := by simp
  rw [hlen]
  cases h : env.writeErr b (writesOn b tr).length with
  | none => simp [talk, sendErrorLog]
  | some e => simp [talk, logPrint, sendErrorLog]

/-- An accepted frame: the handler returns after one write of `talk t`. -/
theorem handleMisskeyMessage_accept (env : Env) (msg : Obj) (t : String)
    (b : ConnId) (tr : Trace) (h : IsNoteFrame msg "example" t) :
    handleMisskeyMessage env msg b tr =
      Outcome.returned (tr ++ Event.stdout ("新しい投稿: " ++ t ++ "\n") ::
        Event.writeJSON b (talk t) (env.writeErr b (writesOn b tr).length) ::
        sendErrorLog (env.writeErr b (writesOn b tr).length)) := by
  obtain ⟨h1, body, h2, h3, h4, noteBody, h5, h6⟩ := h
  have e1 := (index_asString_iff msg "type" "channel").2 h1
  have e2 := (index_asObj_iff msg "body" body).2 h2
  have e3 := (index_asString_iff body "id" "example").2 h3
  have e4 := (index_asString_iff body "type" "note").2 h4
  unfold handleMisskeyMessage
  simp only [e1, if_true]
  unfold handleChannelMessage
  simp only [e2, e3, e4, ne_eq, not_true_eq_false, if_false, if_true]
  exact handleNoteMessage_text env body noteBody t b tr h5 h6

/-- A frame that is not an accepted note: the handler returns after logging
one line, with no write. -/
theorem handleMisskeyMessage_drop (env : Env) (msg : Obj) (b : ConnId) (tr : Trace)
    (h : ∀ t, ¬ IsNoteFrame msg "example" t) :
    ∃ line : String, handleMisskeyMessage env msg b tr =
      Outcome.returned (tr ++ [Event.log line]) := by
  unfold handleMisskeyMessage
  cases e1 : (msg.index "type").asString with
  | none => exact ⟨"メッセージのタイプが不明です", rfl⟩
  | some msgType =>
    dsimp only
    by_cases c1 : msgType = "channel"
    swap
    · exact ⟨"未知のメッセージタイプ: " ++ msgType, by simp [c1, logPrint]⟩
    subst c1
    simp only [if_true]
    unfold handleChannelMessage
    cases e2 : (msg.index "body").asObj with
    | none => exact ⟨"メッセージのボディが不明です", rfl⟩
    | some body =>
      dsimp only
      cases e3 : (body.index "id").asString with
      | none => exact ⟨"チャンネルIDが不明です", rfl⟩
      | some channelID =>
        dsimp only
        by_cases c3 : channelID = "example"
        swap
        · exact ⟨"対象のチャンネルではありません", by simp [c3, logPrint]⟩
        subst c3
        simp only [ne_eq, not_true_eq_false, if_false]
        cases e4 : (body.index "type").asString with
        | none => exact ⟨"メッセージのタイプが不明です", rfl⟩
        | some channelType =>
          dsimp only
          by_cases c4 : channelType = "note"
          swap
          · exact ⟨"未知のチャンネルメッセージタイプ: " ++ channelType, by simp [c4, logPrint]⟩
          subst c4
          simp only [if_true]
          unfold handleNoteMessage
          cases e5 : (body.index "body").asObj with
          | none => exact ⟨"Noteメッセージのボディが不明です", rfl⟩
          | some noteBody =>
            dsimp only
            cases e6 : (noteBody.index "text").asString with
            | none => exact ⟨"Noteメッセージの本文が不明です", rfl⟩
            | some text =>
              exact absurd ⟨(index_asString_iff _ _ _).1 e1, body,
                (index_asObj_iff _ _ _).1 e2, (index_asString_iff _ _ _).1 e3,
                (index_asString_iff _ _ _).1 e4, noteBody,
                (index_asObj_iff _ _ _).1 e5, (index_asString_iff _ _ _).1 e6⟩ (h text)

/-- The writes of a handled frame: none on a dropped frame, one on an
accepted one. -/
theorem handleMisskeyMessage_writes_drop (env : Env) (msg : Obj) (b : ConnId) (tr : Trace)
    (h : ∀ t, ¬ IsNoteFrame msg "example" t) :
    ∃ tr', handleMisskeyMessage env msg b tr = Outcome.returned tr' ∧
      ∀ c, writesOn c tr' = writesOn c tr := by
  obtain ⟨line, hl⟩ := handleMisskeyMessage_drop env msg b tr h
  exact ⟨_, hl, fun c => by simp⟩

theorem handleMisskeyMessage_writes_accept (env : Env) (msg : Obj) (t : String)
    (b : ConnId) (tr : Trace) (h : IsNoteFrame msg "example" t) :
    ∃ tr', handleMisskeyMessage env msg b tr = Outcome.returned tr' ∧
      writesOn b tr' = writesOn b tr ++ [talk t] ∧
      ∀ c, c ≠ b → writesOn c tr' = writesOn c tr := by
  refine ⟨_, handleMisskeyMessage_accept env msg t b tr h, by simp, ?_⟩
  intro c hc
  have hc' : ¬ b = c := fun e => hc e.symm
  simp [hc']

/-- The writes a frame adds do not depend on the trace it is handled in. -/
theorem handleMisskeyMessage_writes (env : Env) (msg : Obj) (b : ConnId) (tr : Trace) :
    ∃ tr', handleMisskeyMessage env msg b tr = Outcome.returned tr' ∧
      ∀ c, writesOn c tr' =
        writesOn c tr ++ writesOn c (handleMisskeyMessage env msg b []).trace := by
  by_cases h : ∃ t, IsNoteFrame msg "example" t
  · obtain ⟨t, ht⟩ := h
    refine ⟨_, handleMisskeyMessage_accept env msg t b tr ht, fun c => ?_⟩
    rw [handleMisskeyMessage_accept env msg t b [] ht]
    simp [Outcome.trace]
  · have h' : ∀ t, ¬ IsNoteFrame msg "example" t := fun t ht => h ⟨t, ht⟩
    obtain ⟨l1, e1⟩ := handleMisskeyMessage_drop env msg b tr h'
    obtain ⟨l2, e2⟩ := handleMisskeyMessage_drop env msg b [] h'
    refine ⟨_, e1, fun c => ?_⟩
    rw [e2]
    simp [Outcome.trace]

/-- The events a handled frame adds: no read, and nothing on a connection
other than the one it writes to. -/
theorem handleMisskeyMessage_added (env : Env) (msg : Obj) (b : ConnId) (tr : Trace) :
    ∃ added, handleMisskeyMessage env msg b tr = Outcome.returned (tr ++ added) ∧
      (∀ c, readsOn c added = 0) ∧ dials added = [] ∧
      (∀ c, c ≠ b → connEvents c added = [] ∧ writesOn c added = []) := by
  by_cases h : ∃ t, IsNoteFrame msg "example" t
  · obtain ⟨t, ht⟩ := h
    refine ⟨_, handleMisskeyMessage_accept env msg t b tr ht, fun c => by simp, by simp, ?_⟩
    intro c hc
    have hc' : b ≠ c := fun e => hc e.symm
    simp [connEvents_cons_write_ne _ _ _ _ _ hc', hc']
  · have h' : ∀ t, ¬ IsNoteFrame msg "example" t := fun t ht => h ⟨t, ht⟩
    obtain ⟨l1, e1⟩ := handleMisskeyMessage_drop env msg b tr h'
    exact ⟨_, e1, fun c => by simp, by simp, fun c _ => by simp⟩

/-! ## The claims on the dispatch -/

/-- C1: for every text `t`, a decoded frame with type "channel", body.id
"example", body.type "note" and body.body.text `t`, whatever further fields
it has at any of the three levels, makes `handleMisskeyMessage` return after
exactly one write to the relay connection, and the value written is the object
Command "Talk", Text `t`, VoiceType 0, Volume -1, Speed -1, Tone -1,
Encoding 0 with no other field; no other connection is written. -/
theorem handleMisskeyMessage_note_submits_talk (env : Env) (msg body noteBody : Obj)
    (t : String) (bouyomiConn : ConnId) (tr : Trace)
    (h1 : msg.lookup "type" = some (Dyn.string "channel"))
    (h2 : msg.lookup "body" = some (Dyn.object body))
    (h3 : body.lookup "id" = some (Dyn.string "example"))
    (h4 : body.lookup "type" = some (Dyn.string "note"))
    (h5 : body.lookup "body" = some (Dyn.object noteBody))
    (h6 : noteBody.lookup "text" = some (Dyn.string t)) :
    ∃ tr', handleMisskeyMessage env msg bouyomiConn tr = Outcome.returned tr' ∧
      writesOn bouyomiConn tr' = writesOn bouyomiConn tr ++ [Dyn.object [
        ("Command", Dyn.string "Talk"),
        ("Text", Dyn.string t),
        ("VoiceType", Dyn.int 0),
        ("Volume", Dyn.int (-1)),
        ("Speed", Dyn.int (-1)),
        ("Tone", Dyn.int (-1)),
        ("Encoding", Dyn.int 0)]] ∧
      ∀ c, c ≠ bouyomiConn → writesOn c tr' = writesOn c tr :=
  handleMisskeyMessage_writes_accept env msg t bouyomiConn tr
    ⟨h1, body, h2, h3, h4, noteBody, h5, h6⟩

/-- C1 at the frame `noteFrameExtra`, which has further fields at each level. -/
theorem handleMisskeyMessage_note_submits_talk_witness :
    ∃ tr', handleMisskeyMessage (sampleEnv "example") noteFrameExtra ConnId.bouyomi []
        = Outcome.returned tr' ∧
      writesOn ConnId.bouyomi tr' = writesOn ConnId.bouyomi [] ++ [Dyn.object [
        ("Command", Dyn.string "Talk"),
        ("Text", Dyn.string "hello"),
        ("VoiceType", Dyn.int 0),
        ("Volume", Dyn.int (-1)),
        ("Speed", Dyn.int (-1)),
        ("Tone", Dyn.int (-1)),
        ("Encoding", Dyn.int 0)]] ∧
      ∀ c, c ≠ ConnId.bouyomi → writesOn c tr' = writesOn c [] :=
  handleMisskeyMessage_note_submits_talk (sampleEnv "example") noteFrameExtra
    [("id", Dyn.string "example"), ("type", Dyn.string "note"),
     ("body", Dyn.object [("id", Dyn.string "9abc"), ("text", Dyn.string "hello"),
       ("cw", Dyn.nil), ("files", Dyn.slice [])]),
     ("extra", Dyn.bool true)]
    [("id", Dyn.string "9abc"), ("text", Dyn.string "hello"),
       ("cw", Dyn.nil), ("files", Dyn.slice [])]
    "hello" ConnId.bouyomi [] rfl rfl rfl rfl rfl rfl

/-- C3: a decoded frame whose "type" field is a string other than "channel",
whatever its other fields, makes `handleMisskeyMessage` return normally
after logging the unknown type, without writing to any connection. -/
theorem handleMisskeyMessage_other_type_no_submission (env : Env) (msg : Obj)
    (msgType : String) (bouyomiConn : ConnId) (tr : Trace)
    (h1 : msg.lookup "type" = some (Dyn.string msgType))
    (h2 : msgType ≠ "channel") :
    ∃ tr', handleMisskeyMessage env msg bouyomiConn tr = Outcome.returned tr' ∧
      tr' = tr ++ [Event.log ("未知のメッセージタイプ: " ++ msgType)] ∧
      ∀ c, writesOn c tr' = writesOn c tr := by
  have e1 := (index_asString_iff msg "type" msgType).2 h1
  refine ⟨_, ?_, rfl, fun c => by simp⟩
  unfold handleMisskeyMessage
  simp only [e1, h2, if_false, logPrint]

/-- C3 at the decoded frame of Scenario C, type "ping". -/
theorem handleMisskeyMessage_other_type_no_submission_witness :
    ∃ tr', handleMisskeyMessage (sampleEnv "example") [("type", Dyn.string "ping")]
        ConnId.bouyomi [] = Outcome.returned tr' ∧
      tr' = [] ++ [Event.log ("未知のメッセージタイプ: " ++ "ping")] ∧
      ∀ c, writesOn c tr' = writesOn c [] :=
  handleMisskeyMessage_other_type_no_submission (sampleEnv "example")
    [("type", Dyn.string "ping")] "ping" ConnId.bouyomi [] rfl (by decide)

/-- C4: a decoded frame with type "channel" whose body.id is a string other
than "example" makes `handleMisskeyMessage` return after logging that the
channel is not the target, without writing to any connection, whatever the
rest of the body is. -/
theorem handleMisskeyMessage_other_channel_no_submission (env : Env) (msg body : Obj)
    (channelID : String) (bouyomiConn : ConnId) (tr : Trace)
    (h1 : msg.lookup "type" = some (Dyn.string "channel"))
    (h2 : msg.lookup "body" = some (Dyn.object body))
    (h3 : body.lookup "id" = some (Dyn.string channelID))
    (h4 : channelID ≠ "example") :
    ∃ tr', handleMisskeyMessage env msg bouyomiConn tr = Outcome.returned tr' ∧
      tr' = tr ++ [Event.log "対象のチャンネルではありません"] ∧
      ∀ c, writesOn c tr' = writesOn c tr := by
  have e1 := (index_asString_iff msg "type" "channel").2 h1
  have e2 := (index_asObj_iff msg "body" body).2 h2
  have e3 := (index_asString_iff body "id" channelID).2 h3
  refine ⟨_, ?_, rfl, fun c => by simp⟩
  unfold handleMisskeyMessage
  simp only [e1, if_true]
  unfold handleChannelMessage
  simp only [e2, e3, ne_eq, h4, not_false_eq_true, if_true, logPrint]

/-- C4 at the decoded frame of Scenario B, channel id "other" with a
well-formed note. -/
theorem handleMisskeyMessage_other_channel_no_submission_witness :
    ∃ tr', handleMisskeyMessage (sampleEnv "example") (noteFrame "other" "hi")
        ConnId.bouyomi [] = Outcome.returned tr' ∧
      tr' = [] ++ [Event.log "対象のチャンネルではありません"] ∧
      ∀ c, writesOn c tr' = writesOn c [] :=
  handleMisskeyMessage_other_channel_no_submission (sampleEnv "example")
    (noteFrame "other" "hi")
    [("id", Dyn.string "other"), ("type", Dyn.string "note"),
     ("body", Dyn.object [("text", Dyn.string "hi")])]
    "other" ConnId.bouyomi [] rfl rfl rfl (by decide)

/-- C5: a decoded frame with type "channel" and body.id "example" whose
body.type is a string other than "note" makes `handleMisskeyMessage` return
after logging the unknown channel message type, without writing to any
connection, also when body.body.text is a string. -/
theorem handleMisskeyMessage_other_body_type_no_submission (env : Env) (msg body : Obj)
    (channelType : String) (bouyomiConn : ConnId) (tr : Trace)
    (h1 : msg.lookup "type" = some (Dyn.string "channel"))
    (h2 : msg.lookup "body" = some (Dyn.object body))
    (h3 : body.lookup "id" = some (Dyn.string "example"))
    (h4 : body.lookup "type" = some (Dyn.string channelType))
    (h5 : channelType ≠ "note") :
    ∃ tr', handleMisskeyMessage env msg bouyomiConn tr = Outcome.returned tr' ∧
      tr' = tr ++ [Event.log ("未知のチャンネルメッセージタイプ: " ++ channelType)] ∧
      ∀ c, writesOn c tr' = writesOn c tr := by
  have e1 := (index_asString_iff msg "type" "channel").2 h1
  have e2 := (index_asObj_iff msg "body" body).2 h2
  have e3 := (index_asString_iff body "id" "example").2 h3
  have e4 := (index_asString_iff body "type" channelType).2 h4
  refine ⟨_, ?_, rfl, fun c => by simp⟩
  unfold handleMisskeyMessage
  simp only [e1, if_true]
  unfold handleChannelMessage
  simp only [e2, e3, e4, ne_eq, not_true_eq_false, h5, if_false, logPrint]

/-- C5 at a frame for channel id "example" of body type "mention" that
carries a text. -/
theorem handleMisskeyMessage_other_body_type_no_submission_witness :
    ∃ tr', handleMisskeyMessage (sampleEnv "example")
        [("type", Dyn.string "channel"),
         ("body", Dyn.object [("id", Dyn.string "example"), ("type", Dyn.string "mention"),
           ("body", Dyn.object [("text", Dyn.string "hi")])])]
        ConnId.bouyomi [] = Outcome.returned tr' ∧
      tr' = [] ++ [Event.log ("未知のチャンネルメッセージタイプ: " ++ "mention")] ∧
      ∀ c, writesOn c tr' = writesOn c [] :=
  handleMisskeyMessage_other_body_type_no_submission (sampleEnv "example")
    [("type", Dyn.string "channel"),
     ("body", Dyn.object [("id", Dyn.string "example"), ("type", Dyn.string "mention"),
       ("body", Dyn.object [("text", Dyn.string "hi")])])]
    [("id", Dyn.string "example"), ("type", Dyn.string "mention"),
       ("body", Dyn.object [("text", Dyn.string "hi")])]
    "mention" ConnId.bouyomi [] rfl rfl rfl rfl (by decide)

/-- C10: a decoded frame in which a field on the dispatch path is absent or
has the wrong shape ("type" absent or not a string; with type "channel":
"body" absent or not an object, body.id absent or not a string, body.type
absent or not a string; with body.type "note": body.body absent or not an
object, body.body.text absent, null or not a string) makes
`handleMisskeyMessage` return normally without writing to any connection;
and whenever a call writes to the relay connection, every one of these fields
is present with its expected shape. -/
theorem handleMisskeyMessage_malformed_no_submission (env : Env) (msg : Obj)
    (bouyomiConn : ConnId) (tr : Trace) :
    (((∀ s, msg.lookup "type" ≠ some (Dyn.string s)) ∨
      (msg.lookup "type" = some (Dyn.string "channel") ∧
        ((∀ body, msg.lookup "body" ≠ some (Dyn.object body)) ∨
         ∃ body : Obj, msg.lookup "body" = some (Dyn.object body) ∧
           ((∀ s, body.lookup "id" ≠ some (Dyn.string s)) ∨
            (∀ s, body.lookup "type" ≠ some (Dyn.string s)) ∨
            (body.lookup "type" = some (Dyn.string "note") ∧
              ((∀ noteBody, body.lookup "body" ≠ some (Dyn.object noteBody)) ∨
               ∃ noteBody : Obj, body.lookup "body" = some (Dyn.object noteBody) ∧
                 ∀ s, noteBody.lookup "text" ≠ some (Dyn.string s))))))) →
      ∃ tr', handleMisskeyMessage env msg bouyomiConn tr = Outcome.returned tr' ∧
        ∀ c, writesOn c tr' = writesOn c tr) ∧
    (writesOn bouyomiConn (handleMisskeyMessage env msg bouyomiConn tr).trace
        ≠ writesOn bouyomiConn tr →
      ∃ (body noteBody : Obj) (text : String),
        msg.lookup "type" = some (Dyn.string "channel") ∧
        msg.lookup "body" = some (Dyn.object body) ∧
        body.lookup "id" = some (Dyn.string "example") ∧
        body.lookup "type" = some (Dyn.string "note") ∧
        body.lookup "body" = some (Dyn.object noteBody) ∧
        noteBody.lookup "text" = some (Dyn.string text)) := by
  constructor
  · intro h
    apply handleMisskeyMessage_writes_drop
    rintro t ⟨g1, body', g2, g3, g4, nb', g5, g6⟩
    rcases h with h | ⟨-, h | ⟨body, hb, h⟩⟩
    · exact h _ g1
    · exact h _ g2
    · rw [hb] at g2
      injection g2 with g2
      injection g2 with g2
      subst g2
      rcases h with h | h | ⟨-, h | ⟨nb, hnb, h⟩⟩
      · exact h _ g3
      · exact h _ g4
      · exact h _ g5
      · rw [hnb] at g5
        injection g5 with g5
        injection g5 with g5
        subst g5
        exact h _ g6
  · intro hw
    by_cases h : ∃ t, IsNoteFrame msg "example" t
    · obtain ⟨t, g1, body, g2, g3, g4, nb, g5, g6⟩ := h
      exact ⟨body, nb, t, g1, g2, g3, g4, g5, g6⟩
    · exfalso
      apply hw
      obtain ⟨tr', e1, e2⟩ := handleMisskeyMessage_writes_drop env msg bouyomiConn tr
        (fun t ht => h ⟨t, ht⟩)
      rw [e1]
      exact e2 bouyomiConn

/-- C10 at a note frame for channel id "example" whose text is null. -/
theorem handleMisskeyMessage_malformed_no_submission_witness :
    ∃ tr', handleMisskeyMessage (sampleEnv "example")
        [("type", Dyn.string "channel"),
         ("body", Dyn.object [("id", Dyn.string "example"), ("type", Dyn.string "note"),
           ("body", Dyn.object [("text", Dyn.nil)])])]
        ConnId.bouyomi [] = Outcome.returned tr' ∧
      ∀ c, writesOn c tr' = writesOn c [] :=
  (handleMisskeyMessage_malformed_no_submission (sampleEnv "example")
    [("type", Dyn.string "channel"),
     ("body", Dyn.object [("id", Dyn.string "example"), ("type", Dyn.string "note"),
       ("body", Dyn.object [("text", Dyn.nil)])])]
    ConnId.bouyomi []).1
    (Or.inr ⟨rfl, Or.inr ⟨[("id", Dyn.string "example"), ("type", Dyn.string "note"),
        ("body", Dyn.object [("text", Dyn.nil)])], rfl,
      Or.inr (Or.inr ⟨rfl, Or.inr ⟨[("text", Dyn.nil)], rfl,
        fun s h => by
          have h' : some Dyn.nil = some (Dyn.string s) := h
          injection h' with h'
          exact Dyn.noConfusion h'⟩⟩)⟩⟩)

/-! ## The read loop -/

/-- One iteration on a delivered message: the loop goes on with the rest, and
the iteration adds one read and the writes the frame produces when handled
alone. -/
theorem readMisskeyStreaming_cons (env : Env) (conn b : ConnId) (raw : String)
    (tr : Trace) :
    ∃ tr1, (∀ rest, readMisskeyStreaming env conn b (Except.ok raw :: rest) tr
        = readMisskeyStreaming env conn b rest tr1) ∧
      readsOn conn tr1 = readsOn conn tr + 1 ∧
      ∀ c, writesOn c tr1 = writesOn c tr ++
        writesOn c (readMisskeyStreaming env conn b [Except.ok raw] []).trace := by
  cases hu : env.jsonUnmarshal raw with
  | error e =>
    refine ⟨logPrint ("メッセージのJSON解析エラー: " ++ e) (tr ++ [Event.readMessage conn]),
      fun rest => ?_, by simp [logPrint], fun c => ?_⟩
    · simp only [readMisskeyStreaming, hu]
    · simp [readMisskeyStreaming, hu, Outcome.trace]
  | ok msg =>
    obtain ⟨added, e1, r1, -, -⟩ :=
      handleMisskeyMessage_added env msg b (tr ++ [Event.readMessage conn])
    obtain ⟨tr2, e2, w2⟩ :=
      handleMisskeyMessage_writes env msg b (tr ++ [Event.readMessage conn])
    obtain ⟨tr3, e3, w3⟩ :=
      handleMisskeyMessage_writes env msg b ([] ++ [Event.readMessage conn])
    rw [e1] at e2
    injection e2 with e2
    subst e2
    refine ⟨tr ++ [Event.readMessage conn] ++ added, fun rest => ?_, by simp [r1],
      fun c => ?_⟩
    · simp only [readMisskeyStreaming, hu, e1]
    · simp only [readMisskeyStreaming, hu, e3, Outcome.trace]
      rw [w2 c, w3 c]
      simp

/-- A run of delivered messages: the loop goes on with whatever follows. -/
theorem readMisskeyStreaming_frames (env : Env) (conn b : ConnId) :
    ∀ (frames : List String) (tr : Trace),
    ∃ tr', (∀ rest, readMisskeyStreaming env conn b (frames.map Except.ok ++ rest) tr
        = readMisskeyStreaming env conn b rest tr') ∧
      readsOn conn tr' = readsOn conn tr + frames.length ∧
      ∀ c, writesOn c tr' = writesOn c tr ++ (frames.map fun raw =>
        writesOn c (readMisskeyStreaming env conn b [Except.ok raw] []).trace).flatten := by
  intro frames
  induction frames with
  | nil =>
    intro tr
    exact ⟨tr, fun rest => rfl, by simp, fun c => by simp⟩
  | cons raw frames ih =>
    intro tr
    obtain ⟨tr1, e1, r1, w1⟩ := readMisskeyStreaming_cons env conn b raw tr
    obtain ⟨tr', e2, r2, w2⟩ := ih tr1
    refine ⟨tr', fun rest => ?_, ?_, fun c => ?_⟩
    · rw [List.map_cons, List.cons_append, e1, e2]
    · rw [r2, r1, List.length_cons]; omega
    · rw [w2 c, w1 c, List.map_cons, List.flatten_cons, List.append_assoc]

/-- The events the loop adds: it never exits the process, reads happen one
per delivered result, and nothing else happens on the source connection. -/
theorem readMisskeyStreaming_added (env : Env) (conn b : ConnId) (hne : conn ≠ b) :
    ∀ (incoming : List ReadResult) (tr : Trace), ∃ added n,
      (readMisskeyStreaming env conn b incoming tr = Outcome.returned (tr ++ added) ∨
        readMisskeyStreaming env conn b incoming tr = Outcome.waiting (tr ++ added)) ∧
      connEvents conn added = List.replicate n (Event.readMessage conn) ∧
      dials added = [] ∧ writesOn conn added = [] := by
  intro incoming
  induction incoming with
  | nil =>
    intro tr
    exact ⟨[], 0, Or.inr (by simp [readMisskeyStreaming]), rfl, rfl, rfl⟩
  | cons r rest ih =>
    intro tr
    cases r with
    | error e =>
      refine ⟨[Event.readMessage conn,
        Event.log ("Misskey Streaming APIからのメッセージの読み取りエラー: " ++ e)], 1,
        Or.inl (by simp [readMisskeyStreaming, logPrint]), by simp, by simp, by simp⟩
    | ok raw =>
      cases hu : env.jsonUnmarshal raw with
      | error e =>
        obtain ⟨added, n, ho, hc, hd, hw⟩ := ih
          (logPrint ("メッセージのJSON解析エラー: " ++ e) (tr ++ [Event.readMessage conn]))
        refine ⟨Event.readMessage conn :: Event.log ("メッセージのJSON解析エラー: " ++ e) :: added,
          n + 1, ?_, by simp [hc, List.replicate_succ], by simp [hd], by simp [hw]⟩
        simp only [readMisskeyStreaming, hu]
        simpa [logPrint] using ho
      | ok msg =>
        obtain ⟨hadded, e1, -, d1, c1⟩ :=
          handleMisskeyMessage_added env msg b (tr ++ [Event.readMessage conn])
        obtain ⟨added, n, ho, hc, hd, hw⟩ := ih (tr ++ [Event.readMessage conn] ++ hadded)
        refine ⟨Event.readMessage conn :: (hadded ++ added), n + 1, ?_,
          by simp [hc, (c1 conn hne).1, List.replicate_succ], by simp [hd, d1],
          by simp [hw, (c1 conn hne).2]⟩
        simp only [readMisskeyStreaming, hu, e1]
        simpa using ho

/-- The writes of the loop on one delivered message are those of the handler
on what `json.Unmarshal` makes of it, and none when it is rejected. -/
theorem readMisskeyStreaming_single_writes (env : Env) (conn b : ConnId) (raw : String)
    (c : ConnId) :
    writesOn c (readMisskeyStreaming env conn b [Except.ok raw] []).trace =
      match env.jsonUnmarshal raw with
      | Except.error _ => []
      | Except.ok msg => writesOn c (handleMisskeyMessage env msg b []).trace := by
  cases hu : env.jsonUnmarshal raw with
  | error e => simp [readMisskeyStreaming, hu, Outcome.trace]
  | ok msg =>
    obtain ⟨tr2, e2, w2⟩ :=
      handleMisskeyMessage_writes env msg b ([] ++ [Event.readMessage conn])
    simp only [readMisskeyStreaming, hu, e2]
    rw [show (Outcome.waiting tr2).trace = tr2 from rfl, w2 c]
    simp

/-- C6: for every finite sequence of raw frames the source connection
delivers without a read error, `readMisskeyStreaming` handles every frame and
is then blocked in the next read, its loop not ended (and it goes on with
whatever is delivered next): it has made one read per frame, and its writes
to the relay connection are the in-order concatenation, over the frames, of
nothing for a frame that `json.Unmarshal` rejects and of the writes of
`handleMisskeyMessage` on the decoded frame otherwise.  These are the writes
of the loop on each frame alone; a rejected frame alone gives a read and a log
line only, and an accepted note frame alone gives the one write of its Talk
command. -/
theorem readMisskeyStreaming_processes_every_frame (env : Env) (conn bouyomiConn : ConnId)
    (frames : List String) (tr : Trace) :
    (∃ tr', readMisskeyStreaming env conn bouyomiConn (frames.map Except.ok) tr
        = Outcome.waiting tr' ∧
      (∀ rest, readMisskeyStreaming env conn bouyomiConn
          (frames.map Except.ok ++ rest) tr
          = readMisskeyStreaming env conn bouyomiConn rest tr') ∧
      readsOn conn tr' = readsOn conn tr + frames.length ∧
      writesOn bouyomiConn tr' = writesOn bouyomiConn tr ++ (frames.map fun raw =>
        match env.jsonUnmarshal raw with
        | Except.error _ => []
        | Except.ok msg =>
          writesOn bouyomiConn (handleMisskeyMessage env msg bouyomiConn []).trace).flatten) ∧
    (∀ raw tr0, ∃ tr1,
      readMisskeyStreaming env conn bouyomiConn [Except.ok raw] tr0 = Outcome.waiting tr1 ∧
      writesOn bouyomiConn tr1 = writesOn bouyomiConn tr0 ++
        match env.jsonUnmarshal raw with
        | Except.error _ => []
        | Except.ok msg =>
          writesOn bouyomiConn (handleMisskeyMessage env msg bouyomiConn []).trace) ∧
    (∀ raw err tr0, env.jsonUnmarshal raw = Except.error err →
      readMisskeyStreaming env conn bouyomiConn [Except.ok raw] tr0 =
        Outcome.waiting (tr0 ++ [Event.readMessage conn,
          Event.log ("メッセージのJSON解析エラー: " ++ err)])) ∧
    (∀ raw msg t tr0, env.jsonUnmarshal raw = Except.ok msg → IsNoteFrame msg "example" t →
      ∃ tr1,
        readMisskeyStreaming env conn bouyomiConn [Except.ok raw] tr0 = Outcome.waiting tr1 ∧
        writesOn bouyomiConn tr1 = writesOn bouyomiConn tr0 ++ [Dyn.object [
          ("Command", Dyn.string "Talk"),
          ("Text", Dyn.string t),
          ("VoiceType", Dyn.int 0),
          ("Volume", Dyn.int (-1)),
          ("Speed", Dyn.int (-1)),
          ("Tone", Dyn.int (-1)),
          ("Encoding", Dyn.int 0)]]) := by
  have single : ∀ raw tr0, ∃ tr1,
      readMisskeyStreaming env conn bouyomiConn [Except.ok raw] tr0 = Outcome.waiting tr1 ∧
      writesOn bouyomiConn tr1 = writesOn bouyomiConn tr0 ++
        match env.jsonUnmarshal raw with
        | Except.error _ => []
        | Except.ok msg =>
          writesOn bouyomiConn (handleMisskeyMessage env msg bouyomiConn []).trace := by
    intro raw tr0
    obtain ⟨tr1, e1, -, w1⟩ := readMisskeyStreaming_cons env conn bouyomiConn raw tr0
    refine ⟨tr1, ?_, ?_⟩
    · rw [e1 []]; rfl
    · rw [w1 bouyomiConn, readMisskeyStreaming_single_writes]
  refine ⟨?_, single, ?_, ?_⟩
  · obtain ⟨tr', e, r, w⟩ := readMisskeyStreaming_frames env conn bouyomiConn frames tr
    refine ⟨tr', ?_, e, r, ?_⟩
    · have h := e []
      rw [List.append_nil] at h
      rw [h]
      rfl
    · rw [w bouyomiConn]
      congr 2
      apply List.map_congr_left
      intro raw _
      exact readMisskeyStreaming_single_writes env conn bouyomiConn raw bouyomiConn
  · intro raw err tr0 hu
    simp [readMisskeyStreaming, hu, logPrint]
  · intro raw msg t tr0 hu hn
    obtain ⟨tr1, e1, w1⟩ := single raw tr0
    refine ⟨tr1, e1, ?_⟩
    rw [w1, hu]
    simp only
    rw [handleMisskeyMessage_accept env msg t bouyomiConn [] hn]
    simp [Outcome.trace, talk]

/-- C6 on five frames: a note for another channel, a message that is not
JSON, a ping and two accepted notes. -/
theorem readMisskeyStreaming_processes_every_frame_sample :
    readMisskeyStreaming (sampleEnv "example") ConnId.misskey ConnId.bouyomi
      [Except.ok (noteJSON "other" "hi"), Except.ok "not json", Except.ok pingJSON,
       Except.ok (noteJSON "example" "hi"), Except.ok (noteJSON "example" "yo")] []
    = Outcome.waiting [
      Event.readMessage ConnId.misskey,
      Event.log "対象のチャンネルではありません",
      Event.readMessage ConnId.misskey,
      Event.log "メッセージのJSON解析エラー: invalid character",
      Event.readMessage ConnId.misskey,
      Event.log "未知のメッセージタイプ: ping",
      Event.readMessage ConnId.misskey,
      Event.stdout "新しい投稿: hi\n",
      Event.writeJSON ConnId.bouyomi (talk "hi") none,
      Event.readMessage ConnId.misskey,
      Event.stdout "新しい投稿: yo\n",
      Event.writeJSON ConnId.bouyomi (talk "yo") none] :=
  rfl

/-- C6 on the five frames above: five reads, and the relay is written the
Talk commands of the two accepted notes, in order. -/
theorem readMisskeyStreaming_processes_every_frame_witness :
    ∃ tr', readMisskeyStreaming (sampleEnv "example") ConnId.misskey ConnId.bouyomi
          [Except.ok (noteJSON "other" "hi"), Except.ok "not json", Except.ok pingJSON,
            Except.ok (noteJSON "example" "hi"), Except.ok (noteJSON "example" "yo")] []
        = Outcome.waiting tr' ∧
      readsOn ConnId.misskey tr' = 5 ∧
      writesOn ConnId.bouyomi tr' = [
        Dyn.object [
          ("Command", Dyn.string "Talk"),
          ("Text", Dyn.string "hi"),
          ("VoiceType", Dyn.int 0),
          ("Volume", Dyn.int (-1)),
          ("Speed", Dyn.int (-1)),
          ("Tone", Dyn.int (-1)),
          ("Encoding", Dyn.int 0)],
        Dyn.object [
          ("Command", Dyn.string "Talk"),
          ("Text", Dyn.string "yo"),
          ("VoiceType", Dyn.int 0),
          ("Volume", Dyn.int (-1)),
          ("Speed", Dyn.int (-1)),
          ("Tone", Dyn.int (-1)),
          ("Encoding", Dyn.int 0)]] := by
  obtain ⟨tr', e, -, r, w⟩ := (readMisskeyStreaming_processes_every_frame
    (sampleEnv "example") ConnId.misskey ConnId.bouyomi
    [noteJSON "other" "hi", "not json", pingJSON, noteJSON "example" "hi",
      noteJSON "example" "yo"] []).1
  exact ⟨tr', e, r, w⟩

/-- C7: when the relay write for an accepted note fails, `handleNoteMessage`
logs the error and returns normally, and `readMisskeyStreaming` goes on to
the next frame: on two consecutive accepted note frames of which the write
for the first fails, the loop reads the first, prints it, attempts its write,
logs the error, reads the second, prints it and attempts the write of the
Talk command carrying the second text, and is then blocked in the next read
(and it goes on with whatever is delivered next); the relay has been handed
the two Talk commands in order. -/
theorem readMisskeyStreaming_continues_after_write_error (env : Env)
    (conn bouyomiConn : ConnId) (raw1 raw2 : String) (msg1 msg2 : Obj)
    (t1 t2 err : String) (tr : Trace)
    (hu1 : env.jsonUnmarshal raw1 = Except.ok msg1) (hn1 : IsNoteFrame msg1 "example" t1)
    (hu2 : env.jsonUnmarshal raw2 = Except.ok msg2) (hn2 : IsNoteFrame msg2 "example" t2)
    (hfail : env.writeErr bouyomiConn (writesOn bouyomiConn tr).length = some err) :
    (∀ body noteBody : Obj, body.lookup "body" = some (Dyn.object noteBody) →
      noteBody.lookup "text" = some (Dyn.string t1) →
      handleNoteMessage env body bouyomiConn (tr ++ [Event.readMessage conn]) =
        Outcome.returned (tr ++ [Event.readMessage conn,
          Event.stdout ("新しい投稿: " ++ t1 ++ "\n"),
          Event.writeJSON bouyomiConn (talk t1) (some err),
          Event.log ("BouyomiChanへのメッセージ送信エラー: " ++ err)])) ∧
    readMisskeyStreaming env conn bouyomiConn [Except.ok raw1, Except.ok raw2] tr =
      Outcome.waiting (tr ++ [
        Event.readMessage conn,
        Event.stdout ("新しい投稿: " ++ t1 ++ "\n"),
        Event.writeJSON bouyomiConn (Dyn.object [
          ("Command", Dyn.string "Talk"),
          ("Text", Dyn.string t1),
          ("VoiceType", Dyn.int 0),
          ("Volume", Dyn.int (-1)),
          ("Speed", Dyn.int (-1)),
          ("Tone", Dyn.int (-1)),
          ("Encoding", Dyn.int 0)]) (some err),
        Event.log ("BouyomiChanへのメッセージ送信エラー: " ++ err),
        Event.readMessage conn,
        Event.stdout ("新しい投稿: " ++ t2 ++ "\n"),
        Event.writeJSON bouyomiConn (Dyn.object [
          ("Command", Dyn.string "Talk"),
          ("Text", Dyn.string t2),
          ("VoiceType", Dyn.int 0),
          ("Volume", Dyn.int (-1)),
          ("Speed", Dyn.int (-1)),
          ("Tone", Dyn.int (-1)),
          ("Encoding", Dyn.int 0)])
          (env.writeErr bouyomiConn ((writesOn bouyomiConn tr).length + 1))] ++
        sendErrorLog (env.writeErr bouyomiConn ((writesOn bouyomiConn tr).length + 1))) ∧
    writesOn bouyomiConn
        (readMisskeyStreaming env conn bouyomiConn [Except.ok raw1, Except.ok raw2] tr).trace =
      writesOn bouyomiConn tr ++ [
        Dyn.object [
          ("Command", Dyn.string "Talk"),
          ("Text", Dyn.string t1),
          ("VoiceType", Dyn.int 0),
          ("Volume", Dyn.int (-1)),
          ("Speed", Dyn.int (-1)),
          ("Tone", Dyn.int (-1)),
          ("Encoding", Dyn.int 0)],
        Dyn.object [
          ("Command", Dyn.string "Talk"),
          ("Text", Dyn.string t2),
          ("VoiceType", Dyn.int 0),
          ("Volume", Dyn.int (-1)),
          ("Speed", Dyn.int (-1)),
          ("Tone", Dyn.int (-1)),
          ("Encoding", Dyn.int 0)]] ∧
    (∀ rest, readMisskeyStreaming env conn bouyomiConn
        (Except.ok raw1 :: Except.ok raw2 :: rest) tr =
      readMisskeyStreaming env conn bouyomiConn rest (tr ++ [
        Event.readMessage conn,
        Event.stdout ("新しい投稿: " ++ t1 ++ "\n"),
        Event.writeJSON bouyomiConn (talk t1) (some err),
        Event.log ("BouyomiChanへのメッセージ送信エラー: " ++ err),
        Event.readMessage conn,
        Event.stdout ("新しい投稿: " ++ t2 ++ "\n"),
        Event.writeJSON bouyomiConn (talk t2)
          (env.writeErr bouyomiConn ((writesOn bouyomiConn tr).length + 1))] ++
        sendErrorLog (env.writeErr bouyomiConn ((writesOn bouyomiConn tr).length + 1)))) := by
  have loop : ∀ rest, readMisskeyStreaming env conn bouyomiConn
        (Except.ok raw1 :: Except.ok raw2 :: rest) tr =
      readMisskeyStreaming env conn bouyomiConn rest (tr ++ [
        Event.readMessage conn,
        Event.stdout ("新しい投稿: " ++ t1 ++ "\n"),
        Event.writeJSON bouyomiConn (talk t1) (some err),
        Event.log ("BouyomiChanへのメッセージ送信エラー: " ++ err),
        Event.readMessage conn,
        Event.stdout ("新しい投稿: " ++ t2 ++ "\n"),
        Event.writeJSON bouyomiConn (talk t2)
          (env.writeErr bouyomiConn ((writesOn bouyomiConn tr).length + 1))] ++
        sendErrorLog (env.writeErr bouyomiConn ((writesOn bouyomiConn tr).length + 1))) := by
    intro rest
    have a1 := handleMisskeyMessage_accept env msg1 t1 bouyomiConn
      (tr ++ [Event.readMessage conn]) hn1
    have l1 : (writesOn bouyomiConn (tr ++ [Event.readMessage conn])).length
        = (writesOn bouyomiConn tr).length := by simp
    rw [l1, hfail] at a1
    have a2 := handleMisskeyMessage_accept env msg2 t2 bouyomiConn
      ((tr ++ [Event.readMessage conn]
        ++ Event.stdout ("新しい投稿: " ++ t1 ++ "\n")
          :: Event.writeJSON bouyomiConn (talk t1) (some err)
          :: sendErrorLog (some err)) ++ [Event.readMessage conn]) hn2
    have l2 : (writesOn bouyomiConn ((tr ++ [Event.readMessage conn]
        ++ Event.stdout ("新しい投稿: " ++ t1 ++ "\n")
          :: Event.writeJSON bouyomiConn (talk t1) (some err)
          :: sendErrorLog (some err)) ++ [Event.readMessage conn])).length
        = (writesOn bouyomiConn tr).length + 1 := by simp
    rw [l2] at a2
    simp only [readMisskeyStreaming, hu1, hu2, a1, a2]
    simp [sendErrorLog]
  refine ⟨?_, ?_, ?_, loop⟩
  · intro body noteBody h1 h2
    rw [handleNoteMessage_text env body noteBody t1 bouyomiConn _ h1 h2]
    simp [hfail, sendErrorLog]
  · rw [loop []]
    rfl
  · rw [loop []]
    simp [readMisskeyStreaming, Outcome.trace, talk]

/-- C7 in `flakyEnv`, whose first relay write fails, on the notes "hi" and
"yo": the write of "yo" is attempted after the failed write of "hi". -/
theorem readMisskeyStreaming_continues_after_write_error_witness :
    readMisskeyStreaming flakyEnv ConnId.misskey ConnId.bouyomi
        [Except.ok (noteJSON "example" "hi"), Except.ok (noteJSON "example" "yo")] [] =
      Outcome.waiting [
        Event.readMessage ConnId.misskey,
        Event.stdout "新しい投稿: hi\n",
        Event.writeJSON ConnId.bouyomi (Dyn.object [
          ("Command", Dyn.string "Talk"),
          ("Text", Dyn.string "hi"),
          ("VoiceType", Dyn.int 0),
          ("Volume", Dyn.int (-1)),
          ("Speed", Dyn.int (-1)),
          ("Tone", Dyn.int (-1)),
          ("Encoding", Dyn.int 0)]) (some "broken pipe"),
        Event.log "BouyomiChanへのメッセージ送信エラー: broken pipe",
        Event.readMessage ConnId.misskey,
        Event.stdout "新しい投稿: yo\n",
        Event.writeJSON ConnId.bouyomi (Dyn.object [
          ("Command", Dyn.string "Talk"),
          ("Text", Dyn.string "yo"),
          ("VoiceType", Dyn.int 0),
          ("Volume", Dyn.int (-1)),
          ("Speed", Dyn.int (-1)),
          ("Tone", Dyn.int (-1)),
          ("Encoding", Dyn.int 0)]) none] :=
  (readMisskeyStreaming_continues_after_write_error flakyEnv ConnId.misskey ConnId.bouyomi
    (noteJSON "example" "hi") (noteJSON "example" "yo")
    (noteFrame "example" "hi") (noteFrame "example" "yo") "hi" "yo" "broken pipe" []
    rfl ⟨rfl, _, rfl, rfl, rfl, _, rfl, rfl⟩
    rfl ⟨rfl, _, rfl, rfl, rfl, _, rfl, rfl⟩ rfl).2.1

/-! ## Startup -/

/-- The run of `main` once both connections are open: the connect frame is
written, then the read loop runs, and the deferred closes follow its return. -/
theorem main_started (env : Env) (incoming : List ReadResult)
    (h0 : env.godotenvLoad = none)
    (h1 : env.dialErr ("wss://" ++ env.getenv "MISSKEY_HOST" ++ "/streaming?i="
      ++ env.getenv "MISSKEY_API_KEY") = none)
    (h2 : env.dialErr ("ws://" ++ env.getenv "BOUYOMI_CHAN_HOST" ++ "/TalkAPI/") = none) :
    main env incoming [] =
      match connectToChannel env ConnId.misskey (env.getenv "MISSKEY_CHANNEL_NAME")
        [Event.dial ("wss://" ++ env.getenv "MISSKEY_HOST" ++ "/streaming?i="
            ++ env.getenv "MISSKEY_API_KEY") none,
         Event.dial ("ws://" ++ env.getenv "BOUYOMI_CHAN_HOST" ++ "/TalkAPI/") none] with
      | Outcome.returned tr3 =>
        match readMisskeyStreaming env ConnId.misskey ConnId.bouyomi incoming tr3 with
        | Outcome.returned tr4 =>
          Outcome.returned (tr4 ++ [Event.close ConnId.bouyomi, Event.close ConnId.misskey])
        | o => o
      | o => o := by
  simp only [main, h0, Dial, h1, connectToBouyomiChan, h2, List.nil_append,
    List.singleton_append]

/-- The trace of `main` once both connections are open. -/
theorem main_started_trace (env : Env) (incoming : List ReadResult)
    (h0 : env.godotenvLoad = none)
    (h1 : env.dialErr ("wss://" ++ env.getenv "MISSKEY_HOST" ++ "/streaming?i="
      ++ env.getenv "MISSKEY_API_KEY") = none)
    (h2 : env.dialErr ("ws://" ++ env.getenv "BOUYOMI_CHAN_HOST" ++ "/TalkAPI/") = none) :
    ∃ added n, (main env incoming []).trace =
        [Event.dial ("wss://" ++ env.getenv "MISSKEY_HOST" ++ "/streaming?i="
            ++ env.getenv "MISSKEY_API_KEY") none,
         Event.dial ("ws://" ++ env.getenv "BOUYOMI_CHAN_HOST" ++ "/TalkAPI/") none,
         Event.writeJSON ConnId.misskey (Dyn.object [
            ("type", Dyn.string "connect"),
            ("body", Dyn.object [
              ("channel", Dyn.string (env.getenv "MISSKEY_CHANNEL_NAME"))])])
            (env.writeErr ConnId.misskey 0)] ++ added ∧
      connEvents ConnId.misskey added = List.replicate n (Event.readMessage ConnId.misskey) ∧
      dials added = [] ∧ writesOn ConnId.misskey added = [] := by
  rw [main_started env incoming h0 h1 h2]
  cases hw : env.writeErr ConnId.misskey 0 with
  | some e =>
    refine ⟨[Event.log ("チャンネルに接続できませんでした:" ++ e)], 0, ?_, by simp, by simp, by simp⟩
    simp [connectToChannel, WriteJSON, hw, logFatal, Outcome.trace]
  | none =>
    obtain ⟨added, n, ho, hc, hd, hwr⟩ := readMisskeyStreaming_added env ConnId.misskey
      ConnId.bouyomi (by decide) incoming
      [Event.dial ("wss://" ++ env.getenv "MISSKEY_HOST" ++ "/streaming?i="
            ++ env.getenv "MISSKEY_API_KEY") none,
         Event.dial ("ws://" ++ env.getenv "BOUYOMI_CHAN_HOST" ++ "/TalkAPI/") none,
         Event.writeJSON ConnId.misskey (Dyn.object [
            ("type", Dyn.string "connect"),
            ("body", Dyn.object [
              ("channel", Dyn.string (env.getenv "MISSKEY_CHANNEL_NAME"))])]) none]
    rcases ho with ho | ho
    · refine ⟨added ++ [Event.close ConnId.bouyomi, Event.close ConnId.misskey], n, ?_,
        by simp [hc], by simp [hd], by simp [hwr]⟩
      simp [connectToChannel, WriteJSON, hw, ho, Outcome.trace]
    · refine ⟨added, n, ?_, hc, hd, hwr⟩
      simp [connectToChannel, WriteJSON, hw, ho, Outcome.trace]

/-- The trace of `main` when a connection cannot be opened: nothing happens on
the source connection. -/
theorem main_not_started_trace (env : Env) (incoming : List ReadResult)
    (h : ¬ (env.godotenvLoad = none ∧
      env.dialErr ("wss://" ++ env.getenv "MISSKEY_HOST" ++ "/streaming?i="
        ++ env.getenv "MISSKEY_API_KEY") = none ∧
      env.dialErr ("ws://" ++ env.getenv "BOUYOMI_CHAN_HOST" ++ "/TalkAPI/") = none)) :
    connEvents ConnId.misskey (main env incoming []).trace = [] := by
  cases h0 : env.godotenvLoad with
  | some e => simp [main, h0, logFatal, Outcome.trace]
  | none =>
    cases h1 : env.dialErr ("wss://" ++ env.getenv "MISSKEY_HOST" ++ "/streaming?i="
        ++ env.getenv "MISSKEY_API_KEY") with
    | some e => simp [main, h0, Dial, h1, logFatal, Outcome.trace]
    | none =>
      cases h2 : env.dialErr ("ws://" ++ env.getenv "BOUYOMI_CHAN_HOST" ++ "/TalkAPI/") with
      | some e =>
        simp [main, h0, Dial, h1, connectToBouyomiChan, h2, logFatal, Outcome.trace]
      | none => exact absurd ⟨h0, h1, h2⟩ h

/-- C9: for every channel name, `connectToChannel` makes exactly one write on
the source connection, of the object with exactly the two fields "type" =
"connect" and "body" = the object whose only field is "channel" = the channel
name (it returns when the write succeeds and exits fatally when it fails);
and in `main`, once both connections are open, the events on the source
connection are this one write, for the configured channel name, followed only
by reads, while a run in which a connection cannot be opened does nothing on
the source connection. -/
theorem connectToChannel_sends_one_connect_frame (env : Env) (conn : ConnId)
    (channel : String) (tr : Trace) (incoming : List ReadResult) :
    (connectToChannel env conn channel tr =
      match env.writeErr conn (writesOn conn tr).length with
      | none => Outcome.returned (tr ++ [Event.writeJSON conn (Dyn.object [
          ("type", Dyn.string "connect"),
          ("body", Dyn.object [("channel", Dyn.string channel)])]) none])
      | some err => Outcome.exited 1 (tr ++ [Event.writeJSON conn (Dyn.object [
          ("type", Dyn.string "connect"),
          ("body", Dyn.object [("channel", Dyn.string channel)])]) (some err),
          Event.log ("チャンネルに接続できませんでした:" ++ err)])) ∧
    writesOn conn (connectToChannel env conn channel tr).trace =
      writesOn conn tr ++ [Dyn.object [
        ("type", Dyn.string "connect"),
        ("body", Dyn.object [("channel", Dyn.string channel)])]] ∧
    (∀ c, c ≠ conn → writesOn c (connectToChannel env conn channel tr).trace
      = writesOn c tr) ∧
    (env.godotenvLoad = none →
      env.dialErr ("wss://" ++ env.getenv "MISSKEY_HOST" ++ "/streaming?i="
        ++ env.getenv "MISSKEY_API_KEY") = none →
      env.dialErr ("ws://" ++ env.getenv "BOUYOMI_CHAN_HOST" ++ "/TalkAPI/") = none →
      ∃ n, connEvents ConnId.misskey (main env incoming []).trace =
        Event.writeJSON ConnId.misskey (Dyn.object [
          ("type", Dyn.string "connect"),
          ("body", Dyn.object [
            ("channel", Dyn.string (env.getenv "MISSKEY_CHANNEL_NAME"))])])
          (env.writeErr ConnId.misskey 0)
        :: List.replicate n (Event.readMessage ConnId.misskey)) ∧
    (¬ (env.godotenvLoad = none ∧
      env.dialErr ("wss://" ++ env.getenv "MISSKEY_HOST" ++ "/streaming?i="
        ++ env.getenv "MISSKEY_API_KEY") = none ∧
      env.dialErr ("ws://" ++ env.getenv "BOUYOMI_CHAN_HOST" ++ "/TalkAPI/") = none) →
      connEvents ConnId.misskey (main env incoming []).trace = []) := by
  refine ⟨?_, ?_, ?_, ?_, main_not_started_trace env incoming⟩
  · cases hw : env.writeErr conn (writesOn conn tr).length <;>
      simp [connectToChannel, WriteJSON, hw, logFatal]
  · cases hw : env.writeErr conn (writesOn conn tr).length <;>
      simp [connectToChannel, WriteJSON, hw, logFatal, Outcome.trace]
  · intro c hc
    have hc' : ¬ conn = c := fun e => hc e.symm
    cases hw : env.writeErr conn (writesOn conn tr).length <;>
      simp [connectToChannel, WriteJSON, hw, logFatal, Outcome.trace, hc']
  · intro h0 h1 h2
    obtain ⟨added, n, e, hc, -, -⟩ := main_started_trace env incoming h0 h1 h2
    exact ⟨n, by rw [e]; simp [hc]⟩

/-- C9 in `sampleEnv "timeline"` with two incoming messages: the connect
frame for "timeline", then two reads. -/
theorem connectToChannel_sends_one_connect_frame_witness :
    ∃ n, connEvents ConnId.misskey (main (sampleEnv "timeline")
        [Except.ok pingJSON, Except.ok (noteJSON "example" "hi")] []).trace =
      Event.writeJSON ConnId.misskey (Dyn.object [
        ("type", Dyn.string "connect"),
        ("body", Dyn.object [
          ("channel", Dyn.string ((sampleEnv "timeline").getenv "MISSKEY_CHANNEL_NAME"))])])
        ((sampleEnv "timeline").writeErr ConnId.misskey 0)
      :: List.replicate n (Event.readMessage ConnId.misskey) :=
  (connectToChannel_sends_one_connect_frame (sampleEnv "timeline") ConnId.misskey
    "timeline" [] [Except.ok pingJSON, Except.ok (noteJSON "example" "hi")]).2.2.2.1
    rfl rfl rfl

/-- C8 fails: with `MISSKEY_CHANNEL_NAME` unset, `main` opens both
connections, subscribes to the channel "" and waits for messages; with all
four values unset it still dials, and it is the failed dial that is fatal. -/
theorem main_dials_with_missing_values :
    (sampleEnv "").getenv "MISSKEY_CHANNEL_NAME" = "" ∧
    main (sampleEnv "") [] [] = Outcome.waiting [
      Event.dial "wss://misskey.test/streaming?i=token" none,
      Event.dial "ws://localhost:50002/TalkAPI/" none,
      Event.writeJSON ConnId.misskey (Dyn.object [
        ("type", Dyn.string "connect"),
        ("body", Dyn.object [("channel", Dyn.string "")])]) none] ∧
    (∀ key, emptyEnv.getenv key = "") ∧
    main emptyEnv [] [] = Outcome.exited 1 [
      Event.dial "wss:///streaming?i=" (some "dial tcp: missing address"),
      Event.log "Misskey Streaming APIに接続できませんでした:dial tcp: missing address"] :=
  ⟨rfl, rfl, fun _ => rfl, rfl⟩

/-- C8, amended: `main` does not validate the four configuration values.  It
exits fatally before any dial exactly when loading the environment file
fails; when loading succeeds, whatever the four values are (empty ones
included), its first effect is the dial of
`wss://<MISSKEY_HOST>/streaming?i=<MISSKEY_API_KEY>`. -/
theorem main_startup_without_validation (env : Env) (incoming : List ReadResult) :
    (∀ err, env.godotenvLoad = some err →
      main env incoming [] = Outcome.exited 1 [Event.log ("環境変数の読み込みエラー:" ++ err)] ∧
      dials (main env incoming []).trace = []) ∧
    (env.godotenvLoad = none →
      ∃ rest, (main env incoming []).trace =
        Event.dial ("wss://" ++ env.getenv "MISSKEY_HOST" ++ "/streaming?i="
            ++ env.getenv "MISSKEY_API_KEY")
          (env.dialErr ("wss://" ++ env.getenv "MISSKEY_HOST" ++ "/streaming?i="
            ++ env.getenv "MISSKEY_API_KEY")) :: rest) := by
  constructor
  · intro err h0
    simp [main, h0, logFatal, Outcome.trace]
  · intro h0
    cases h1 : env.dialErr ("wss://" ++ env.getenv "MISSKEY_HOST" ++ "/streaming?i="
        ++ env.getenv "MISSKEY_API_KEY") with
    | some e =>
      exact ⟨[Event.log ("Misskey Streaming APIに接続できませんでした:" ++ e)], by
        simp [main, h0, Dial, h1, logFatal, Outcome.trace]⟩
    | none =>
      cases h2 : env.dialErr ("ws://" ++ env.getenv "BOUYOMI_CHAN_HOST" ++ "/TalkAPI/") with
      | some e =>
        exact ⟨[Event.dial ("ws://" ++ env.getenv "BOUYOMI_CHAN_HOST" ++ "/TalkAPI/") (some e),
          Event.log ("BouyomiChanに接続できませんでした:"
            ++ ("BouyomiChanに接続できませんでした: " ++ e))], by
          simp [main, h0, Dial, h1, connectToBouyomiChan, h2, logFatal, Outcome.trace]⟩
      | none =>
        obtain ⟨added, n, e, -, -, -⟩ := main_started_trace env incoming h0 h1 h2
        exact ⟨_, by rw [e]; rfl⟩

/-- C8, amended, in `emptyEnv`, where no variable is set: the first effect of
`main` is the dial of `wss:///streaming?i=`. -/
theorem main_startup_without_validation_witness :
    ∃ rest, (main emptyEnv [] []).trace =
      Event.dial ("wss://" ++ emptyEnv.getenv "MISSKEY_HOST" ++ "/streaming?i="
          ++ emptyEnv.getenv "MISSKEY_API_KEY")
        (emptyEnv.dialErr ("wss://" ++ emptyEnv.getenv "MISSKEY_HOST" ++ "/streaming?i="
          ++ emptyEnv.getenv "MISSKEY_API_KEY")) :: rest :=
  (main_startup_without_validation emptyEnv []).2 rfl

/-- C2 fails: with `MISSKEY_CHANNEL_NAME` set to "other", a note frame whose
body.id is "other" produces no write to the relay, and the same frame with
body.id "example" produces one. -/
theorem main_ignores_configured_channel :
    (sampleEnv "other").getenv "MISSKEY_CHANNEL_NAME" = "other" ∧
    (sampleEnv "other").jsonUnmarshal (noteJSON "other" "hi")
      = Except.ok (noteFrame "other" "hi") ∧
    writesOn ConnId.bouyomi
      (main (sampleEnv "other") [Except.ok (noteJSON "other" "hi")] []).trace = [] ∧
    (sampleEnv "other").jsonUnmarshal (noteJSON "example" "hi")
      = Except.ok (noteFrame "example" "hi") ∧
    writesOn ConnId.bouyomi
      (main (sampleEnv "other") [Except.ok (noteJSON "example" "hi")] []).trace
      = [talk "hi"] ∧
    writesOn ConnId.misskey
      (main (sampleEnv "other") [Except.ok (noteJSON "example" "hi")] []).trace
      = [Dyn.object [
          ("type", Dyn.string "connect"),
          ("body", Dyn.object [("channel", Dyn.string "other")])]] :=
  ⟨rfl, rfl, rfl, rfl, rfl, rfl⟩

/-- C2, amended: the channel id the router accepts is the fixed string
"example", whatever the configured channel name is.  For every configured
channel name `c` (the `MISSKEY_CHANNEL_NAME` value, which `main` sends in the
connect frame) and every text `t`, in a run of `main` that has opened both
connections and subscribed, a frame with type "channel", body.type "note",
body.body.text `t` and body.id "example" results in one write to the relay,
with Text `t`, and the same frame with a body.id other than "example" results
in none. -/
theorem main_accepts_channel_example_only (env : Env) (c raw : String) (msg : Obj)
    (id t : String)
    (h0 : env.godotenvLoad = none)
    (h1 : env.dialErr ("wss://" ++ env.getenv "MISSKEY_HOST" ++ "/streaming?i="
      ++ env.getenv "MISSKEY_API_KEY") = none)
    (h2 : env.dialErr ("ws://" ++ env.getenv "BOUYOMI_CHAN_HOST" ++ "/TalkAPI/") = none)
    (h3 : env.writeErr ConnId.misskey 0 = none)
    (hc : env.getenv "MISSKEY_CHANNEL_NAME" = c)
    (hu : env.jsonUnmarshal raw = Except.ok msg)
    (hn : IsNoteFrame msg id t) :
    writesOn ConnId.misskey (main env [Except.ok raw] []).trace =
      [Dyn.object [
        ("type", Dyn.string "connect"),
        ("body", Dyn.object [("channel", Dyn.string c)])]] ∧
    writesOn ConnId.bouyomi (main env [Except.ok raw] []).trace =
      if id = "example" then
        [Dyn.object [
          ("Command", Dyn.string "Talk"),
          ("Text", Dyn.string t),
          ("VoiceType", Dyn.int 0),
          ("Volume", Dyn.int (-1)),
          ("Speed", Dyn.int (-1)),
          ("Tone", Dyn.int (-1)),
          ("Encoding", Dyn.int 0)]]
      else [] := by
  rw [main_started env _ h0 h1 h2]
  simp only [connectToChannel, WriteJSON, writesOn_cons_dial, writesOn_nil, List.length_nil,
    h3, readMisskeyStreaming, hu, hc]
  by_cases hid : id = "example"
  · subst hid
    rw [handleMisskeyMessage_accept env msg t ConnId.bouyomi _ hn]
    simp [Outcome.trace, talk]
  · have hdrop : ∀ t', ¬ IsNoteFrame msg "example" t' := by
      rintro t' ⟨-, body', g2, g3, -⟩
      obtain ⟨-, body, k2, k3, -⟩ := hn
      rw [k2] at g2
      injection g2 with g2
      injection g2 with g2
      subst g2
      rw [k3] at g3
      injection g3 with g3
      injection g3 with g3
      exact hid g3
    obtain ⟨line, e⟩ := handleMisskeyMessage_drop env msg ConnId.bouyomi
      ([Event.dial ("wss://" ++ env.getenv "MISSKEY_HOST" ++ "/streaming?i="
            ++ env.getenv "MISSKEY_API_KEY") none,
         Event.dial ("ws://" ++ env.getenv "BOUYOMI_CHAN_HOST" ++ "/TalkAPI/") none] ++
        [Event.writeJSON ConnId.misskey (Dyn.object [
            ("type", Dyn.string "connect"),
            ("body", Dyn.object [("channel", Dyn.string c)])]) none]
        ++ [Event.readMessage ConnId.misskey]) hdrop
    rw [e]
    simp [Outcome.trace, hid]

/-- C2, amended, in `sampleEnv "other"`: the note for channel id "example" is
relayed although the configured channel name is "other". -/
theorem main_accepts_channel_example_only_witness :
    writesOn ConnId.misskey
        (main (sampleEnv "other") [Except.ok (noteJSON "example" "hi")] []).trace =
      [Dyn.object [
        ("type", Dyn.string "connect"),
        ("body", Dyn.object [("channel", Dyn.string "other")])]] ∧
    writesOn ConnId.bouyomi
        (main (sampleEnv "other") [Except.ok (noteJSON "example" "hi")] []).trace =
      if "example" = "example" then
        [Dyn.object [
          ("Command", Dyn.string "Talk"),
          ("Text", Dyn.string "hi"),
          ("VoiceType", Dyn.int 0),
          ("Volume", Dyn.int (-1)),
          ("Speed", Dyn.int (-1)),
          ("Tone", Dyn.int (-1)),
          ("Encoding", Dyn.int 0)]]
      else [] :=
  main_accepts_channel_example_only (sampleEnv "other") "other"
    (noteJSON "example" "hi") (noteFrame "example" "hi") "example" "hi"
    rfl rfl rfl rfl rfl rfl ⟨rfl, _, rfl, rfl, rfl, _, rfl, rfl⟩

end MiYomiage
